import Mathlib

/-!
Verification of the SysML XML-to-triples extraction engine (`src/controller/tmx.py`).

The Python code is shallowly embedded: an XML document (as produced by
`xml.etree.ElementTree.fromstring`) is a tree of `Elem` values; each extractor
method of `SysMLParser` becomes a Lean function over `Elem`.  Places where the
Python code can raise an exception (`AttributeError` / `TypeError` on a `None`
value) are modelled with `Option`: `none` means the corresponding Python code
raises.  Python string idioms (`strip`, `replace`, `split(...)[-1]`,
`capitalize`, truthiness of optional attribute values, substring tests) are
embedded as executable helper functions below.
-/

set_option maxRecDepth 10000

namespace Tmx

/-! ## Python string helpers -/

/-- Characters treated as whitespace by Python's `str.strip()` (ASCII range). -/
def isPyWs (c : Char) : Bool :=
  c == ' ' || c == '\t' || c == '\n' || c == '\r' || c == '\x0b' || c == '\x0c'

/-- Python `s.strip()`. -/
def pyStrip (s : String) : String :=
  ⟨((s.data.dropWhile isPyWs).reverse.dropWhile isPyWs).reverse⟩

/-- Python `s.strip(cs)` for a set of characters `cs`. -/
def pyStripSet (cs : List Char) (s : String) : String :=
  ⟨((s.data.dropWhile (cs.contains ·)).reverse.dropWhile (cs.contains ·)).reverse⟩

/-- Python `s.lstrip(cs)` for a set of characters `cs`. -/
def pyLStripSet (cs : List Char) (s : String) : String :=
  ⟨s.data.dropWhile (cs.contains ·)⟩

/-- Python `s.capitalize()`: first character upper-cased, the rest lower-cased. -/
def pyCapitalize (s : String) : String :=
  match s.data with
  | [] => ""
  | c :: cs => ⟨c.toUpper :: cs.map Char.toLower⟩

/-- Python `s.split(sep)[-1]` for a one-character separator
(also `s.split(sep)[-1] if sep in s else s`, which agrees with it). -/
def afterLastSep (sep : Char) (s : String) : String :=
  ⟨(s.data.reverse.takeWhile (· != sep)).reverse⟩

/-- Python `s.split(sep)[0]` for a one-character separator. -/
def beforeFirstSep (sep : Char) (s : String) : String :=
  ⟨s.data.takeWhile (· != sep)⟩

/-- `SysMLParser._strip_ns`: `tag.split("}")[-1] if "}" in tag else tag`. -/
def stripNs (tag : String) : String :=
  afterLastSep '}' tag

/-- Does the character list `h` start with `p`? -/
def listStartsWith : List Char → List Char → Bool
  | _, [] => true
  | [], _ :: _ => false
  | a :: as, b :: bs => a == b && listStartsWith as bs

/-- Python `p in h` on strings: substring containment (char-list form). -/
def listHasSub : List Char → List Char → Bool
  | h, p =>
    if listStartsWith h p then true
    else
      match h with
      | [] => false
      | _ :: as => listHasSub as p

/-- Python `p in h` on strings: substring containment. -/
def strHasSub (h p : String) : Bool :=
  listHasSub h.data p.data

/-- Fuel-bounded core of `removeSubChars`; the fuel is always at least the
list length, so the `0, c :: rest` case is unreachable. -/
def removeSubCharsAux (pat : List Char) : Nat → List Char → List Char
  | _, [] => []
  | 0, l => l
  | fuel + 1, c :: rest =>
    if pat.isEmpty then c :: rest
    else if listStartsWith (c :: rest) pat then
      removeSubCharsAux pat fuel (rest.drop (pat.length - 1))
    else
      c :: removeSubCharsAux pat fuel rest

/-- Python `s.replace(pat, "")`: remove all (non-overlapping, leftmost-first)
occurrences of the non-empty pattern `pat` (char-list form). -/
def removeSubChars (pat l : List Char) : List Char :=
  removeSubCharsAux pat l.length l

/-- Python `s.replace(pat, "")`. -/
def pyRemove (s pat : String) : String :=
  ⟨removeSubChars pat.data s.data⟩

/-- Python truthiness of an optional string attribute value
(`None` and `""` are falsy). -/
def truthy (o : Option String) : Bool :=
  o.getD "" != ""

/-- Default an optional string to `""`. -/
def od (o : Option String) : String :=
  o.getD ""

/-- How a Python f-string renders an optional string
(`None` prints as `"None"`). -/
def pyShowOpt (o : Option String) : String :=
  match o with
  | none => "None"
  | some s => s

/-- The characters stripped by Python `strip("<>")`. -/
def angleChars : List Char := ['<', '>']

/-! ## XML element model

`Elem` mirrors an `xml.etree.ElementTree.Element`: a raw tag (with any
`{uri}`-prefix inline), an attribute map (keys unique, as in `Element.attrib`)
and the ordered list of child elements. -/

structure Elem where
  tag : String
  attrs : List (String × String)
  children : List Elem

/-- `element.get(key)`: attribute lookup. -/
def Elem.get (e : Elem) (k : String) : Option String :=
  (e.attrs.find? (fun p => p.1 == k)).map (·.2)

/-- `element.get(key, default)`. -/
def Elem.getD (e : Elem) (k d : String) : String :=
  (e.get k).getD d

mutual

/-- `element.iter()`: the element followed by all its descendants, preorder. -/
def allElems : Elem → List Elem
  | .mk t a cs => .mk t a cs :: allElemsList cs

/-- Preorder traversal of a forest of elements. -/
def allElemsList : List Elem → List Elem
  | [] => []
  | c :: cs => allElems c ++ allElemsList cs

end

/-- All proper descendants of an element, in document order. -/
def descendants (e : Elem) : List Elem :=
  allElemsList e.children

/-- `element.findall("./t")`: direct children with raw tag `t`. -/
def childrenTag (e : Elem) (t : String) : List Elem :=
  e.children.filter (fun c => c.tag == t)

/-- `element.find("./t")`. -/
def firstChildTag (e : Elem) (t : String) : Option Elem :=
  (childrenTag e t).head?

/-- `element.findall("./t[@k='v']")`: direct children with tag `t` whose
attribute `k` equals `v`. -/
def childrenTagAttr (e : Elem) (t k v : String) : List Elem :=
  e.children.filter (fun c => c.tag == t && c.get k == some v)

/-- `element.find("./t[@k='v']")`. -/
def firstChildTagAttr (e : Elem) (t k v : String) : Option Elem :=
  (childrenTagAttr e t k v).head?

/-- `element.findall(".//t")`: all descendants with raw tag `t`, document order. -/
def descTag (e : Elem) (t : String) : List Elem :=
  (descendants e).filter (fun c => c.tag == t)

/-- `element.findall(".//t[@k='v']")`. -/
def descTagAttr (e : Elem) (t k v : String) : List Elem :=
  (descendants e).filter (fun c => c.tag == t && c.get k == some v)

/-- The attribute key `f"{{{ns}}}id"` used for `xmi:id` lookups
(`ns` is `self.namespaces.get('xmi', '')`). -/
def xidKey (xu : String) : String :=
  "\x7b" ++ xu ++ "\x7d" ++ "id"

/-- The attribute key `f"{{{ns}}}type"` used for `xmi:type` lookups. -/
def xtyKey (xu : String) : String :=
  "\x7b" ++ xu ++ "\x7d" ++ "type"

/-! ## Dictionaries

Python `dict` with string keys, as a function model: later assignments win. -/

def Dmap : Type := String → Option String

/-- The empty dict. -/
def dempty : Dmap := fun _ => none

/-- `d[k] = v`. -/
def dinsert (m : Dmap) (k v : String) : Dmap :=
  fun q => if q = k then some v else m q

/-- `d.get(k, default)`. -/
def dget (m : Dmap) (k d : String) : String :=
  (m k).getD d

/-- A (subject, relation, object) triple, as appended to `self.triples`. -/
abbrev Triple := String × String × String

/-- `node_id_to_name.get(x, f"未知节点 (ID: {x})")`: the shared endpoint
resolution with the unknown-node placeholder. -/
def resolveName (table : Dmap) (nid : String) : String :=
  dget table nid ("未知节点 (ID: " ++ nid ++ ")")

/-! ## Global ID index (`load_xml`, the `_model_elements_by_id` pass)

For each element carrying an `xmi:id`, `load_xml` computes a display name by a
fallback chain: non-empty `name` attribute; `./stereotypeNodes` child's name
stripped of angle brackets and whitespace; `./subLabels[@alias='Name']` child's
name; cleaned `xmi:type` plus a type suffix; placeholder with the ID.  When the
`subLabels[@alias='Name']` child has no `name` attribute the Python code calls
`.strip()` on `None` and raises `AttributeError`: that case is `none` here. -/

/-- The `(id, display name)` contribution of one element to
`_model_elements_by_id` — `none` means `load_xml` raises; `some none` means the
element is not indexed (no truthy `xmi:id`). -/
def indexEntry (xu : String) (e : Elem) : Option (Option (String × String)) :=
  let eid? := e.get (xidKey xu)
  if truthy eid? then
    let eid := od eid?
    if truthy (e.get "name") then
      some (some (eid, od (e.get "name")))
    else
      let st? := (firstChildTag e "stereotypeNodes").bind (fun sn => sn.get "name")
      if truthy st? then
        some (some (eid, pyStrip (pyStripSet angleChars (od st?))))
      else
        match firstChildTagAttr e "subLabels" "alias" "Name" with
        | some sl =>
          match sl.get "name" with
          | none => none
          | some ln => some (some (eid, pyStrip ln))
        | none =>
          let ty? := e.get (xtyKey xu)
          if truthy ty? then
            some (some (eid, pyRemove (pyRemove (stripNs (od ty?)) "trufun:") "T" ++ " (类型)"))
          else
            some (some (eid, "未知元素 (ID: " ++ eid ++ ")"))
  else
    some none

/-- The full `_model_elements_by_id` map built over `root.iter()`;
`none` when `load_xml` raises. -/
def buildGlobalIndex (xu : String) (root : Elem) : Option Dmap :=
  (allElems root).foldlM
    (fun m e =>
      (indexEntry xu e).map (fun o =>
        match o with
        | none => m
        | some (k, v) => dinsert m k v))
    dempty

/-! ## Requirement diagram extraction (`extract_requirement_diagrams`) -/

/-- Diagram match: `tag == "contents" and stereotype == "SysmlRequirementDiagram"`. -/
def isReqDiagram (e : Elem) : Bool :=
  stripNs e.tag == "contents" && e.get "stereotype" == some "SysmlRequirementDiagram"

/-- Phase A: `node_id_to_name` over `.//nodes[@stereotype='<<requirement>>']`. -/
def reqNodeTable (xu : String) (d : Elem) : Dmap :=
  (descTagAttr d "nodes" "stereotype" "<<requirement>>").foldl
    (fun m n =>
      if truthy (n.get (xidKey xu)) then
        dinsert m (od (n.get (xidKey xu))) (pyStrip (n.getD "name" "未命名需求"))
      else m)
    dempty

/-- Relation label: `stereotype` attribute (angle-stripped, capitalized), else
`type` attribute (after last `.`), else the default `"Unknown"`. -/
def reqConnLabel (conn : Elem) : String :=
  if truthy (conn.get "stereotype") then
    pyCapitalize (pyStripSet angleChars (od (conn.get "stereotype")))
  else if truthy (conn.get "type") then
    afterLastSep '.' (od (conn.get "type"))
  else "Unknown"

/-- Phase B for one `./connections` child: a triple is appended exactly when
both `source` and `target` are present and non-empty. -/
def reqConnTriple (table : Dmap) (conn : Elem) : Option Triple :=
  if truthy (conn.get "source") && truthy (conn.get "target") then
    some (resolveName table (od (conn.get "source")),
          reqConnLabel conn,
          resolveName table (od (conn.get "target")))
  else none

/-- All triples appended for one requirement diagram. -/
def reqDiagramTriples (xu : String) (d : Elem) : List Triple :=
  (childrenTag d "connections").filterMap (reqConnTriple (reqNodeTable xu d))

/-- `extract_requirement_diagrams`: diagrams in document order, connections in
traversal order. -/
def extractRequirementDiagrams (xu : String) (root : Elem) : List Triple :=
  ((allElems root).filter isReqDiagram).flatMap (reqDiagramTriples xu)

/-! ## Internal block diagram extraction (`extract_internal_block_diagrams`)

The naming pass dereferences `node_xmi_type` with `self._strip_ns` in its
fallback branch; a node with a truthy `xmi:id` but no `xmi:type` makes Python
raise `TypeError` there, so the naming pass is `Option`-valued. -/

/-- Diagram match for internal block diagrams. -/
def isIbdDiagram (e : Elem) : Bool :=
  stripNs e.tag == "contents" && e.get "stereotype" == some "SysmlInternalBlockDiagram"

/-- Naming rule for one `.//nodes` descendant: `none` = Python raises,
`some none` = node skipped, `some (some (id, display))` = entry stored. -/
def ibdNodeEntry (xu : String) (n : Elem) : Option (Option (String × String)) :=
  let xty? := n.get (xtyKey xu)
  let nid? := n.get (xidKey xu)
  let nm := pyStrip (n.getD "name" "")
  if truthy nid? then
    let nid := od nid?
    if xty? == some "trufun:TStructureClassNode" then
      some (some (nid, "上下文块: " ++ nm))
    else if xty? == some "trufun:TModelElementNode"
        && n.get "type" == some "SysML.IBD.PartProperty" then
      some (some (nid, "部件: " ++ pyStrip (pyLStripSet [':', ' '] nm)))
    else if xty? == some "trufun:TPortNode" then
      some (some (nid, "端口: " ++ pyStrip (pyRemove (pyRemove nm ":") "~")))
    else if xty? == some "trufun:SubLabel" then
      some none
    else
      match xty? with
      | none => none
      | some xty =>
        if nm != "" then
          some (some (nid, "其他节点 (" ++ stripNs xty ++ "): " ++ nm))
        else
          some (some (nid, "其他节点 (" ++ stripNs xty ++ "): ID " ++ nid))
  else
    some none

/-- Phase A over `.//nodes` (`none` when any node raises). -/
def ibdNodeTable (xu : String) (d : Elem) : Option Dmap :=
  (descTag d "nodes").foldlM
    (fun m n =>
      (ibdNodeEntry xu n).map (fun o =>
        match o with
        | none => m
        | some (k, v) => dinsert m k v))
    dempty

/-- Relation label: `type == "SysML.IBD.Connector"` gives `"Connector"`; else a
truthy `xmi:type` cleaned (`split(":")[-1]`, remove `"T"`, remove
`"Connection"`); else the raw tag. -/
def ibdConnLabel (xu : String) (conn : Elem) : String :=
  if conn.get "type" == some "SysML.IBD.Connector" then "Connector"
  else if truthy (conn.get (xtyKey xu)) then
    pyRemove (pyRemove (afterLastSep ':' (od (conn.get (xtyKey xu)))) "T") "Connection"
  else stripNs conn.tag

/-- Phase B for one `./connections` child. -/
def ibdConnTriple (xu : String) (table : Dmap) (conn : Elem) : Option Triple :=
  if truthy (conn.get "source") && truthy (conn.get "target") then
    some (resolveName table (od (conn.get "source")),
          ibdConnLabel xu conn,
          resolveName table (od (conn.get "target")))
  else none

/-- All triples appended for one internal block diagram. -/
def ibdDiagramTriples (xu : String) (d : Elem) : Option (List Triple) :=
  (ibdNodeTable xu d).map
    (fun table => (childrenTag d "connections").filterMap (ibdConnTriple xu table))

/-- `extract_internal_block_diagrams`. -/
def extractInternalBlockDiagrams (xu : String) (root : Elem) : Option (List Triple) :=
  ((allElems root).filter isIbdDiagram).foldlM
    (fun acc d => (ibdDiagramTriples xu d).map (fun ts => acc ++ ts)) []

/-! ## Block diagram extraction (`extract_block_diagrams`) -/

/-- Diagram match for block diagrams. -/
def isBlockDiagram (e : Elem) : Bool :=
  stripNs e.tag == "contents" && e.get "stereotype" == some "SysmlBlockDiagram"

/-- Phase A over `.//nodes[@name]`: nodes with a truthy `xmi:id`, skipping
`type == "ListCompartmentChild"` compartment children. -/
def blockNodeTable (xu : String) (d : Elem) : Dmap :=
  ((descendants d).filter (fun n => n.tag == "nodes" && (n.get "name").isSome)).foldl
    (fun m n =>
      if truthy (n.get (xidKey xu)) then
        if n.get "type" == some "ListCompartmentChild" then m
        else dinsert m (od (n.get (xidKey xu))) (pyStrip (n.getD "name" "未命名节点"))
      else m)
    dempty

/-- Relation label: truthy `xmi:type` cleaned, else the raw tag. -/
def blockConnLabel (xu : String) (conn : Elem) : String :=
  if truthy (conn.get (xtyKey xu)) then
    pyRemove (pyRemove (afterLastSep ':' (od (conn.get (xtyKey xu)))) "T") "Connection"
  else stripNs conn.tag

/-- Phase B for one `./connections` child. -/
def blockConnTriple (xu : String) (table : Dmap) (conn : Elem) : Option Triple :=
  if truthy (conn.get "source") && truthy (conn.get "target") then
    some (resolveName table (od (conn.get "source")),
          blockConnLabel xu conn,
          resolveName table (od (conn.get "target")))
  else none

/-- All triples appended for one block diagram. -/
def blockDiagramTriples (xu : String) (d : Elem) : List Triple :=
  (childrenTag d "connections").filterMap (blockConnTriple xu (blockNodeTable xu d))

/-- `extract_block_diagrams`. -/
def extractBlockDiagrams (xu : String) (root : Elem) : List Triple :=
  ((allElems root).filter isBlockDiagram).flatMap (blockDiagramTriples xu)

/-! ## Use case diagram extraction (`extract_usecase_diagrams`) -/

/-- Diagram match: `xmi:type == "trufun:TUsecaseDiagram"`. -/
def isUcDiagram (xu : String) (e : Elem) : Bool :=
  stripNs e.tag == "contents" && e.get (xtyKey xu) == some "trufun:TUsecaseDiagram"

/-- Phase A: use-case nodes and `<<block>>`-stereotyped model element nodes. -/
def ucNodeTable (xu : String) (d : Elem) : Dmap :=
  (descTag d "nodes").foldl
    (fun m n =>
      if truthy (n.get (xidKey xu)) then
        if n.get (xtyKey xu) == some "trufun:TUseCaseNode" then
          dinsert m (od (n.get (xidKey xu))) (pyStrip (n.getD "name" "未命名"))
        else if n.get (xtyKey xu) == some "trufun:TModelElementNode"
            && n.get "stereotype" == some "<<block>>" then
          dinsert m (od (n.get (xidKey xu))) (pyStrip (n.getD "name" "未命名"))
        else m
      else m)
    dempty

/-- Relation label: truthy `xmi:type` (with `"TAssociationConnection"` mapped
to `"Association"`, else cleaned), else the raw tag. -/
def ucConnLabel (xu : String) (conn : Elem) : String :=
  if truthy (conn.get (xtyKey xu)) then
    let tn := afterLastSep ':' (od (conn.get (xtyKey xu)))
    if tn == "TAssociationConnection" then "Association"
    else pyRemove (pyRemove tn "T") "Connection"
  else stripNs conn.tag

/-- Phase B for one `./connections` child. -/
def ucConnTriple (xu : String) (table : Dmap) (conn : Elem) : Option Triple :=
  if truthy (conn.get "source") && truthy (conn.get "target") then
    some (resolveName table (od (conn.get "source")),
          ucConnLabel xu conn,
          resolveName table (od (conn.get "target")))
  else none

/-- All triples appended for one use case diagram. -/
def ucDiagramTriples (xu : String) (d : Elem) : List Triple :=
  (childrenTag d "connections").filterMap (ucConnTriple xu (ucNodeTable xu d))

/-- `extract_usecase_diagrams`. -/
def extractUsecaseDiagrams (xu : String) (root : Elem) : List Triple :=
  ((allElems root).filter (isUcDiagram xu)).flatMap (ucDiagramTriples xu)

/-! ## Activity diagram extraction (`extract_activity_diagrams`)

Three `Option`-valued pieces: the naming pass raises on a node with a truthy
`xmi:id` but no `xmi:type`; the structured-logging pass raises on a partition
child node without `xmi:type` (`"PinNode" not in None`); the connection loop
raises on a `subLabels` child with `alias == "Stereotype"` but no `name`
(`None not in conn_type`). -/

/-- Diagram match: `xmi:type == "trufun:TActivityDiagram"`. -/
def isActDiagram (xu : String) (e : Elem) : Bool :=
  stripNs e.tag == "contents" && e.get (xtyKey xu) == some "trufun:TActivityDiagram"

/-- Naming rule for one `.//nodes` descendant of an activity diagram. -/
def actNodeEntry (xu : String) (n : Elem) : Option (Option (String × String)) :=
  let xty? := n.get (xtyKey xu)
  let nid? := n.get (xidKey xu)
  let nm := pyStrip (n.getD "name" "")
  if truthy nid? then
    let nid := od nid?
    if xty? == some "trufun:TInitialNode" then some (some (nid, "起始节点"))
    else if xty? == some "trufun:TActivityFinalNode" then some (some (nid, "活动终点"))
    else if xty? == some "trufun:TDecisionNode" then some (some (nid, "决策节点"))
    else if xty? == some "trufun:TActionNode" then some (some (nid, nm))
    else if xty? == some "trufun:TInputPinNode" then
      some (some (nid, if nm != "" then "输入引脚: " ++ pyStrip (pyRemove nm ":") else "输入引脚"))
    else if xty? == some "trufun:TOutputPinNode" then
      some (some (nid, if nm != "" then "输出引脚: " ++ pyStrip (pyRemove nm ":") else "输出引脚"))
    else if xty? == some "trufun:TCommentNode" then some (some (nid, "注释: " ++ nm))
    else if xty? == some "trufun:TCallBehaviorAction" then some (some (nid, "调用行为: " ++ nm))
    else if xty? == some "trufun:TSubjectNode" then some (some (nid, "泳道: " ++ nm))
    else if xty? == some "trufun:TActivityNode" then some (some (nid, "顶层活动: " ++ nm))
    else if xty? == some "trufun:SubLabel" then some none
    else
      match xty? with
      | none => none
      | some xty =>
        some (some (nid, "未知节点 (" ++ stripNs xty ++ "): "
          ++ (if nm != "" then nm else "ID " ++ nid)))
  else
    some none

/-- Phase A over `.//nodes`. -/
def actNodeTable (xu : String) (d : Elem) : Option Dmap :=
  (descTag d "nodes").foldlM
    (fun m n =>
      (actNodeEntry xu n).map (fun o =>
        match o with
        | none => m
        | some (k, v) => dinsert m k v))
    dempty

/-- Does the structured-logging pass (over the partitions of the main
`trufun:TActivityNode` child) complete without raising?  It raises exactly when
some partition child node lacks `xmi:type`. -/
def actPass2Ok (xu : String) (d : Elem) : Bool :=
  match firstChildTagAttr d "nodes" (xtyKey xu) "trufun:TActivityNode" with
  | none => true
  | some main =>
    (childrenTagAttr main "nodes" (xtyKey xu) "trufun:TSubjectNode").all
      (fun part => (childrenTag part "nodes").all (fun sub => (sub.get (xtyKey xu)).isSome))

/-- Base relation label before the stereotype-sublabel augmentation:
angle-stripped `stereotype` attribute, else mapped/cleaned truthy `xmi:type`,
else the default `"Unknown Flow"`. -/
def actConnLabelBase (xu : String) (conn : Elem) : String :=
  if truthy (conn.get "stereotype") then
    pyStripSet angleChars (od (conn.get "stereotype"))
  else if truthy (conn.get (xtyKey xu)) then
    let tn := afterLastSep ':' (od (conn.get (xtyKey xu)))
    if tn == "TControlFlowConnection" then "Control Flow"
    else if tn == "TObjectFlowConnection" then "Object Flow"
    else pyRemove (pyRemove tn "T") "Connection"
  else "Unknown Flow"

/-- Full relation label: when no `stereotype` attribute is present, every
`subLabels` child with `alias == "Stereotype"` whose raw `name` is not already
a substring of the label appends its stripped name; a `name`-less such child
makes Python raise (`None not in str`). -/
def actConnLabel (xu : String) (conn : Elem) : Option String :=
  let base := actConnLabelBase xu conn
  if truthy (conn.get "stereotype") then some base
  else
    (childrenTag conn "subLabels").foldlM
      (fun ct sl =>
        if sl.get "alias" == some "Stereotype" then
          match sl.get "name" with
          | none => none
          | some nm =>
            if strHasSub ct nm then some ct
            else some (ct ++ " " ++ pyStripSet angleChars (pyStrip nm))
        else some ct)
      base

/-- Phase B for one `./connections` child: `some []` = nothing appended,
`some [t]` = one triple appended, `none` = Python raises. -/
def actConnTriples (xu : String) (table : Dmap) (conn : Elem) : Option (List Triple) :=
  if truthy (conn.get "source") && truthy (conn.get "target") then
    (actConnLabel xu conn).map (fun lab =>
      [(resolveName table (od (conn.get "source")), lab,
        resolveName table (od (conn.get "target")))])
  else some []

/-- All triples appended for one activity diagram. -/
def actDiagramTriples (xu : String) (d : Elem) : Option (List Triple) :=
  (actNodeTable xu d).bind (fun table =>
    if actPass2Ok xu d then
      (childrenTag d "connections").foldlM
        (fun acc c => (actConnTriples xu table c).map (fun ts => acc ++ ts)) []
    else none)

/-- `extract_activity_diagrams`. -/
def extractActivityDiagrams (xu : String) (root : Elem) : Option (List Triple) :=
  ((allElems root).filter (isActDiagram xu)).foldlM
    (fun acc d => (actDiagramTriples xu d).map (fun ts => acc ++ ts)) []

/-! ## Class diagram extraction (`extract_class_diagrams`) -/

/-- Diagram match: `xmi:type == "trufun:TClassDiagram"`. -/
def isClassDiagram (xu : String) (e : Elem) : Bool :=
  stripNs e.tag == "contents" && e.get (xtyKey xu) == some "trufun:TClassDiagram"

/-- Phase A: class, model-element and comment nodes with a non-empty name. -/
def classNodeTable (xu : String) (d : Elem) : Dmap :=
  (descTag d "nodes").foldl
    (fun m n =>
      let xty? := n.get (xtyKey xu)
      let nm := pyStrip (n.getD "name" "")
      if truthy (n.get (xidKey xu))
          && (xty? == some "trufun:TClassNode"
            || xty? == some "trufun:TModelElementNode"
            || xty? == some "trufun:TCommentNode") then
        if nm != "" then dinsert m (od (n.get (xidKey xu))) nm else m
      else m)
    dempty

/-- Relation label: angle-stripped `stereotype`, else a truthy `xmi:type`
(with four special-cased names, else cleaned), else `"Unknown Relationship"`. -/
def classConnLabel (xu : String) (conn : Elem) : String :=
  if truthy (conn.get "stereotype") then
    pyStripSet angleChars (od (conn.get "stereotype"))
  else if truthy (conn.get (xtyKey xu)) then
    let tn := afterLastSep ':' (od (conn.get (xtyKey xu)))
    if tn == "TAssociationConnection" then "Association"
    else if tn == "TGeneralizeConnection" then "Generalization"
    else if tn == "TRealizeConnection" then "Realization"
    else if tn == "TDependencyConnection" then "Dependency"
    else pyRemove (pyRemove tn "T") "Connection"
  else "Unknown Relationship"

/-- Phase B for one `./connections` child. -/
def classConnTriple (xu : String) (table : Dmap) (conn : Elem) : Option Triple :=
  if truthy (conn.get "source") && truthy (conn.get "target") then
    some (resolveName table (od (conn.get "source")),
          classConnLabel xu conn,
          resolveName table (od (conn.get "target")))
  else none

/-- All triples appended for one class diagram. -/
def classDiagramTriples (xu : String) (d : Elem) : List Triple :=
  (childrenTag d "connections").filterMap (classConnTriple xu (classNodeTable xu d))

/-- `extract_class_diagrams`. -/
def extractClassDiagrams (xu : String) (root : Elem) : List Triple :=
  ((allElems root).filter (isClassDiagram xu)).flatMap (classDiagramTriples xu)

/-! ## State machine diagram extraction (`extract_state_machine_diagrams`)

The naming pass raises on a node with a truthy `xmi:id` but no `xmi:type`
(fallback branch formats `self._strip_ns(None)`); everything else, including
the transition loop, is total.  Each appended triple's relation label is the
constant `"Transition"`. -/

/-- Diagram match: `xmi:type == "trufun:TStateMachineDiagram"` and
`stereotype == "SysMLStateDiagram"`. -/
def isSmDiagram (xu : String) (e : Elem) : Bool :=
  stripNs e.tag == "contents"
    && e.get (xtyKey xu) == some "trufun:TStateMachineDiagram"
    && e.get "stereotype" == some "SysMLStateDiagram"

/-- Naming rule for one `.//nodes` descendant of a state machine diagram. -/
def smNodeEntry (xu : String) (n : Elem) : Option (Option (String × String)) :=
  let xty? := n.get (xtyKey xu)
  let nid? := n.get (xidKey xu)
  let nm := pyStrip (n.getD "name" "")
  if truthy nid? then
    let nid := od nid?
    let orUnnamed := if nm != "" then nm else "未命名"
    if xty? == some "trufun:TStateMachineNode" then some (some (nid, "状态机: " ++ orUnnamed))
    else if xty? == some "trufun:TRegionNode" then some (some (nid, "区域: " ++ orUnnamed))
    else if xty? == some "trufun:TInitialStateNode" then some (some (nid, "初始状态"))
    else if xty? == some "trufun:TFinalStateNode" then some (some (nid, "最终状态"))
    else if xty? == some "trufun:TCompositeStateNode" then some (some (nid, "状态: " ++ orUnnamed))
    else if xty? == some "trufun:TChoiceStateNode" then some (some (nid, "选择伪状态"))
    else if xty? == some "trufun:TJoinStateNode" then some (some (nid, "连接伪状态"))
    else if xty? == some "trufun:TForkStateNode" then some (some (nid, "分叉伪状态"))
    else if xty? == some "trufun:TEntryPointNode" then some (some (nid, "入口点伪状态"))
    else if xty? == some "trufun:TExitPointNode" then some (some (nid, "出口点伪状态"))
    else if xty? == some "trufun:TCommentNode" && n.get "type" == some "HyperLink" then
      some (some (nid, "超链接: " ++ nm))
    else if xty? == some "trufun:SubLabel" then some none
    else
      match xty? with
      | none => none
      | some xty =>
        some (some (nid, "未知节点 (" ++ stripNs xty ++ "): "
          ++ (if nm != "" then nm else "ID " ++ nid)))
  else
    some none

/-- Phase A over `.//nodes`. -/
def smNodeTable (xu : String) (d : Elem) : Option Dmap :=
  (descTag d "nodes").foldlM
    (fun m n =>
      (smNodeEntry xu n).map (fun o =>
        match o with
        | none => m
        | some (k, v) => dinsert m k v))
    dempty

/-- Phase B for one `./connections` child: relation label is always
`"Transition"`. -/
def smConnTriple (table : Dmap) (conn : Elem) : Option Triple :=
  if truthy (conn.get "source") && truthy (conn.get "target") then
    some (resolveName table (od (conn.get "source")),
          "Transition",
          resolveName table (od (conn.get "target")))
  else none

/-- All triples appended for one state machine diagram. -/
def smDiagramTriples (xu : String) (d : Elem) : Option (List Triple) :=
  (smNodeTable xu d).map
    (fun table => (childrenTag d "connections").filterMap (smConnTriple table))

/-- `extract_state_machine_diagrams`. -/
def extractStateMachineDiagrams (xu : String) (root : Elem) : Option (List Triple) :=
  ((allElems root).filter (isSmDiagram xu)).foldlM
    (fun acc d => (smDiagramTriples xu d).map (fun ts => acc ++ ts)) []

/-! ## Package diagram extraction (`extract_package_diagrams`)

The relation-label fallback formats `self._strip_ns(conn_xmi_type)`, so a
connection with both endpoints but no `xmi:type` (outside the realization
special case) makes Python raise `TypeError`: that connection is `none`. -/

/-- Diagram match: `stereotype == "SysMlPackageDiagram"`. -/
def isPkgDiagram (e : Elem) : Bool :=
  stripNs e.tag == "contents" && e.get "stereotype" == some "SysMlPackageDiagram"

/-- Phase A: `trufun:TPackageNode` nodes. -/
def pkgNodeTable (xu : String) (d : Elem) : Dmap :=
  (descTag d "nodes").foldl
    (fun m n =>
      if truthy (n.get (xidKey xu)) && n.get (xtyKey xu) == some "trufun:TPackageNode" then
        dinsert m (od (n.get (xidKey xu))) (pyStrip (n.getD "name" ""))
      else m)
    dempty

/-- The decorative `" (<<import>>)"`-style suffix taken from the first
`subLabels` child with `alias == "FixedName"`. -/
def pkgStereotypeLabel (conn : Elem) : String :=
  match firstChildTagAttr conn "subLabels" "alias" "FixedName" with
  | none => ""
  | some sl =>
    let t := pyStrip (sl.getD "name" "")
    if t != "" then " (" ++ t ++ ")" else ""

/-- `node_id_to_name.get(x, f"未知包 (ID: {x})")`: package endpoint resolution. -/
def resolvePkgName (table : Dmap) (nid : String) : String :=
  dget table nid ("未知包 (ID: " ++ nid ++ ")")

/-- Phase B for one `./connections` child: `some none` = nothing appended,
`some (some t)` = one triple appended, `none` = Python raises. -/
def pkgConnTriple (xu : String) (table : Dmap) (conn : Elem) : Option (Option Triple) :=
  if truthy (conn.get "source") && truthy (conn.get "target") then
    let xty? := conn.get (xtyKey xu)
    let rel? : Option String :=
      if xty? == some "trufun:TRealizationConnection" && truthy (conn.get "type") then
        some (if conn.get "type" == some "ElementImport" then "元素导入"
          else if conn.get "type" == some "PackageImport" then "包导入"
          else od (conn.get "type"))
      else
        match xty? with
        | none => none
        | some xty => some (pyRemove (pyRemove (stripNs xty) "trufun:") "Connection")
    rel?.map (fun rel =>
      some (resolvePkgName table (od (conn.get "source")),
            rel ++ pkgStereotypeLabel conn,
            resolvePkgName table (od (conn.get "target"))))
  else some none

/-- All triples appended for one package diagram. -/
def pkgDiagramTriples (xu : String) (d : Elem) : Option (List Triple) :=
  (childrenTag d "connections").foldlM
    (fun acc c =>
      (pkgConnTriple xu (pkgNodeTable xu d) c).map (fun o =>
        match o with
        | none => acc
        | some t => acc ++ [t]))
    []

/-- `extract_package_diagrams`. -/
def extractPackageDiagrams (xu : String) (root : Elem) : Option (List Triple) :=
  ((allElems root).filter isPkgDiagram).foldlM
    (fun acc d => (pkgDiagramTriples xu d).map (fun ts => acc ++ ts)) []

/-! ## Parametric diagram extraction (`extract_parametric_diagrams`)

The naming pass needs the global `_model_elements_by_id` index (for
`modelElement` back-references); it raises on a constraint-parameter port whose
first `subLabels[@alias='Name']` child has no `name`, and on a node with a
truthy `xmi:id` reaching the fallback branch with no `xmi:type`.  A connection
yields a triple only when the first `./eAnnotations/details` child with
`key == "palette_entry_id"` has value `"SysML.IBD.BindingConnector"`. -/

/-- Diagram match: `stereotype == "SysmlParameterDiagram"` and
`xmi:type == "trufun:TCompositeStructureDiagram"`. -/
def isParamDiagram (xu : String) (e : Elem) : Bool :=
  stripNs e.tag == "contents"
    && e.get "stereotype" == some "SysmlParameterDiagram"
    && e.get (xtyKey xu) == some "trufun:TCompositeStructureDiagram"

/-- The `(id, name)` entries contributed by one `.//nodes` descendant
(a part property also registers its direct inner value properties);
`none` = Python raises. -/
def paramNodeInserts (xu : String) (gidx : Dmap) (n : Elem) :
    Option (List (String × String)) :=
  let xty? := n.get (xtyKey xu)
  let nid? := n.get (xidKey xu)
  let nm := pyStrip (n.getD "name" "")
  if truthy nid? then
    let nid := od nid?
    if xty? == some "trufun:TStructureClassNode"
        && n.get "stereotype" == some "<<block>>" then
      some [(nid, "上下文块: " ++ nm)]
    else if n.get "type" == some "SysML.IBD.ConstraintProperty" then
      let referenced? := (n.get "modelElement").bind gidx
      if nm != "" then some [(nid, "约束属性实例: " ++ nm)]
      else
        match referenced? with
        | some r =>
          if r != "" && !(strHasSub r "类型") then
            some [(nid, "约束属性实例: " ++ r)]
          else some [(nid, "约束属性实例 (ID: " ++ nid ++ ")")]
        | none => some [(nid, "约束属性实例 (ID: " ++ nid ++ ")")]
    else if n.get "type" == some "SysML.IBD.ValueProperty" then
      some [(nid, "值属性: " ++ nm)]
    else if n.get "type" == some "SysML.IBD.PartProperty" then
      some ((nid, "部件属性: " ++ pyStrip (pyLStripSet [':', ' '] nm)) ::
        (childrenTag n "nodes").filterMap (fun inner =>
          if truthy (inner.get (xidKey xu))
              && inner.get "type" == some "SysML.IBD.ValueProperty" then
            some (od (inner.get (xidKey xu)), "内部值属性: " ++ pyStrip (inner.getD "name" ""))
          else none))
    else if xty? == some "trufun:TPortNode"
        && n.get "stereotype" == some "<<constraintParameter>>" then
      match firstChildTagAttr n "subLabels" "alias" "Name" with
      | some sl =>
        match sl.get "name" with
        | none => none
        | some pn => some [(nid, "参数: " ++ pyStrip pn)]
      | none =>
        if nm != "" then some [(nid, "参数: " ++ pyStrip (beforeFirstSep ':' nm))]
        else some [(nid, "参数 (ID: " ++ nid ++ ")")]
    else if xty? == some "trufun:SubLabel" then some []
    else
      match xty? with
      | none => none
      | some xty =>
        some [(nid, "其他节点 (" ++ stripNs xty ++ "): "
          ++ (if nm != "" then nm else "ID " ++ nid))]
  else
    some []

/-- Phase A over `.//nodes` (dict assignments in document order, later wins). -/
def paramNodeTable (xu : String) (gidx : Dmap) (d : Elem) : Option Dmap :=
  (descTag d "nodes").foldlM
    (fun m n =>
      (paramNodeInserts xu gidx n).map (fun kvs =>
        kvs.foldl (fun m' kv => dinsert m' kv.1 kv.2) m))
    dempty

/-- `conn.find("./eAnnotations/details[@key='palette_entry_id']")`. -/
def firstPaletteDetail (conn : Elem) : Option Elem :=
  ((childrenTag conn "eAnnotations").flatMap
    (fun a => childrenTagAttr a "details" "key" "palette_entry_id")).head?

/-- Is the binding-connector marker check of the Python `if` satisfied? -/
def bindingMarkerOk (conn : Elem) : Bool :=
  match firstPaletteDetail conn with
  | some det => det.get "value" == some "SysML.IBD.BindingConnector"
  | none => false

/-- Phase B for one `./connections` child of a parametric diagram. -/
def paramConnTriple (table : Dmap) (conn : Elem) : Option Triple :=
  if truthy (conn.get "source") && truthy (conn.get "target")
      && bindingMarkerOk conn then
    let st := pyStripSet angleChars (conn.getD "stereotype" "")
    some (resolveName table (od (conn.get "source")),
          if st != "" then "Binding (" ++ st ++ ")" else "Binding",
          resolveName table (od (conn.get "target")))
  else none

/-- All triples appended for one parametric diagram. -/
def paramDiagramTriples (xu : String) (gidx : Dmap) (d : Elem) : Option (List Triple) :=
  (paramNodeTable xu gidx d).map
    (fun table => (childrenTag d "connections").filterMap (paramConnTriple table))

/-- `extract_parametric_diagrams`. -/
def extractParametricDiagrams (xu : String) (gidx : Dmap) (root : Elem) :
    Option (List Triple) :=
  ((allElems root).filter (isParamDiagram xu)).foldlM
    (fun acc d => (paramDiagramTriples xu gidx d).map (fun ts => acc ++ ts)) []

/-! ## Sequence diagram message extraction (`extract_sequence_diagrams`,
message loop)

Phase A of the sequence extractor (the recursive node collection) produces two
per-diagram maps: `diagram_node_map` (`nmap`) and
`event_occurrence_to_lifeline_id_map` (`emap`); the message loop below is
embedded over those maps.  A connection whose `xmi:type` is
`"trufun:TMessageConnection_SD"` always appends exactly one triple — missing
endpoints fall back to the unknown-lifeline placeholder, with Python rendering
the absent ID as `"None"` — unless a `subLabels` child with `alias == "Name"`
has no `name` attribute, in which case Python raises (`None.strip()`). -/

/-- The extra label details collected from `./subLabels` children with
`alias == "Name"` whose stripped name differs from the message name;
`none` = Python raises. -/
def seqMsgDetails (conn : Elem) (msgName : String) : Option (List String) :=
  (childrenTag conn "subLabels").foldlM
    (fun acc sl =>
      if sl.get "alias" == some "Name" then
        match sl.get "name" with
        | none => none
        | some nm =>
          if pyStrip nm != msgName then some (acc ++ [pyStrip nm]) else some acc
      else some acc)
    []

/-- One endpoint of a message: event ID → owning lifeline ID → display name,
with the unknown-lifeline placeholder fallback. -/
def seqEndpointName (emap nmap : Dmap) (eventId? : Option String) : String :=
  ((eventId?.bind emap).bind nmap).getD ("未知生命线 (事件: " ++ pyShowOpt eventId? ++ ")")

/-- The triples appended for one `./connections` child of a sequence diagram:
`some []` for non-message connections, `some [t]` for a message, `none` when
Python raises. -/
def seqConnTriples (xu : String) (emap nmap : Dmap) (conn : Elem) :
    Option (List Triple) :=
  if conn.get (xtyKey xu) == some "trufun:TMessageConnection_SD" then
    let msgName := pyStrip (conn.getD "name" "Unnamed Message")
    (seqMsgDetails conn msgName).map (fun details =>
      let lab :=
        if details.isEmpty then msgName
        else msgName ++ " (" ++ String.intercalate ", " details ++ ")"
      [(seqEndpointName emap nmap (conn.get "source"), lab,
        seqEndpointName emap nmap (conn.get "target"))])
  else some []

/-! ## Serializer (`triples_to_graph_json`)

The serializer is parameterized by `pyHash`, the process-wide Python `hash`
function on strings for the current run: CPython randomizes string hashing
per process (`PYTHONHASHSEED`), so two runs generally use two different such
functions, but within one run `pyHash` is a single fixed function. -/

/-- One `"head"`/`"tail"` entity record of the output document. -/
structure EntityJson where
  label : String
  id : String
  name : String
deriving DecidableEq, Repr

/-- One `"triples"` record of the output document. -/
structure RelJson where
  head : EntityJson
  relType : String
  tail : EntityJson
deriving DecidableEq, Repr

/-- `triples_to_graph_json`: every endpoint serializes with
`id = str(hash(name))`. -/
def triplesToGraphJson (pyHash : String → Int) (label : String)
    (ts : List Triple) : List RelJson :=
  ts.map (fun t =>
    { head := { label := label, id := toString (pyHash t.1), name := t.1 },
      relType := t.2.1,
      tail := { label := label, id := toString (pyHash t.2.2), name := t.2.2 } })

/-- All entity records of an output document, in order. -/
def entitiesOf (g : List RelJson) : List EntityJson :=
  g.flatMap (fun r => [r.head, r.tail])

/-! ## `parse_all` and the full pipeline -/

/-- `parse_all`: the nine triple-producing extractors in their fixed call
order (`extract_tables` appends no triples; `extract_sequence_diagrams` is not
called by `parse_all`).  `none` = some extractor raises. -/
def parseAll (xu : String) (gidx : Dmap) (root : Elem) : Option (List Triple) := do
  let t1 := extractRequirementDiagrams xu root
  let t2 ← extractInternalBlockDiagrams xu root
  let t3 := extractBlockDiagrams xu root
  let t4 := extractUsecaseDiagrams xu root
  let t5 ← extractActivityDiagrams xu root
  let t6 := extractClassDiagrams xu root
  let t7 ← extractStateMachineDiagrams xu root
  let t8 ← extractPackageDiagrams xu root
  let t9 ← extractParametricDiagrams xu gidx root
  return t1 ++ t2 ++ t3 ++ t4 ++ t5 ++ t6 ++ t7 ++ t8 ++ t9

/-- `SysMLParser(content)` followed by `parse_all()` on an already well-formed
document tree: builds the global ID index, then extracts.  `none` = the run
aborts with an exception. -/
def runAll (xu : String) (root : Elem) : Option (List Triple) := do
  let gidx ← buildGlobalIndex xu root
  parseAll xu gidx root

/-! ## Definitions modelled from the spec's wording, for comparison -/

/-- Modelled from the claim wording (C6): one uniform relation-label priority
chain — "explicit stereotype (decoration-stripped, title-cased) > explicit
specific-type attribute > declared element-type (namespace-stripped and
cleaned) > raw tag name" — applied to any connection of any diagram kind. -/
def claimChainLabel (xu : String) (conn : Elem) : String :=
  if truthy (conn.get "stereotype") then
    pyCapitalize (pyStripSet angleChars (od (conn.get "stereotype")))
  else if truthy (conn.get "type") then
    od (conn.get "type")
  else if truthy (conn.get (xtyKey xu)) then
    pyRemove (pyRemove (afterLastSep ':' (od (conn.get (xtyKey xu)))) "T") "Connection"
  else stripNs conn.tag

/-- Modelled from the claim wording (C8): the connection "carries the
recognized binding-connector annotation marker (an eAnnotations/details child
with key 'palette_entry_id' and value 'SysML.IBD.BindingConnector')" — an
existential over all such grandchildren. -/
def claimHasBindingMarker (conn : Elem) : Bool :=
  (childrenTag conn "eAnnotations").any (fun a =>
    a.children.any (fun det =>
      det.tag == "details" && det.get "key" == some "palette_entry_id"
        && det.get "value" == some "SysML.IBD.BindingConnector"))

/-! ## Concrete documents used by the closed theorems -/

/-- A concrete stand-in for `self.namespaces.get('xmi', '')`. -/
def xuC : String := "X"

/-- A well-formed document on which `SysMLParser.__init__` raises
`AttributeError`: an identified element with no `name`, no `stereotypeNodes`,
and a `subLabels[@alias='Name']` child that has no `name` attribute
(`load_xml` calls `.strip()` on `None` for it). -/
def c2doc : Elem :=
  ⟨"root", [],
    [⟨"b", [(xidKey xuC, "e1")], [⟨"subLabels", [("alias", "Name")], []⟩]⟩]⟩

/-- An internal block diagram with two ports and one connector. -/
def ibdD : Elem :=
  ⟨"contents", [("stereotype", "SysmlInternalBlockDiagram")],
    [⟨"nodes", [(xidKey xuC, "i1"), (xtyKey xuC, "trufun:TPortNode"), ("name", "p1")], []⟩,
     ⟨"nodes", [(xidKey xuC, "i2"), (xtyKey xuC, "trufun:TPortNode"), ("name", "p2")], []⟩,
     ⟨"connections", [("source", "i1"), ("target", "i2"), ("type", "SysML.IBD.Connector")], []⟩]⟩

/-- The connection `R1 --<<derive>>--> R2` of the requirement diagram `reqD`. -/
def reqConn1 : Elem :=
  ⟨"connections", [("source", "r1"), ("target", "r2"), ("stereotype", "<<derive>>")], []⟩

/-- A requirement diagram with two requirement nodes and one derive connection. -/
def reqD : Elem :=
  ⟨"contents", [("stereotype", "SysmlRequirementDiagram")],
    [⟨"nodes", [(xidKey xuC, "r1"), ("stereotype", "<<requirement>>"), ("name", "R1")], []⟩,
     ⟨"nodes", [(xidKey xuC, "r2"), ("stereotype", "<<requirement>>"), ("name", "R2")], []⟩,
     reqConn1]⟩

/-- A second requirement diagram (`R3 --<<trace>>--> R4`). -/
def reqD2 : Elem :=
  ⟨"contents", [("stereotype", "SysmlRequirementDiagram")],
    [⟨"nodes", [(xidKey xuC, "r3"), ("stereotype", "<<requirement>>"), ("name", "R3")], []⟩,
     ⟨"nodes", [(xidKey xuC, "r4"), ("stereotype", "<<requirement>>"), ("name", "R4")], []⟩,
     ⟨"connections", [("source", "r3"), ("target", "r4"), ("stereotype", "<<trace>>")], []⟩]⟩

/-- A document whose internal block diagram precedes its requirement diagram. -/
def c3doc : Elem := ⟨"root", [], [ibdD, reqD]⟩

/-- A document with two requirement diagrams, in document order. -/
def c3wdoc : Elem := ⟨"root", [], [reqD, reqD2]⟩

/-- A connection whose `source` resolves to nothing (the diagram `c4diag` has
no requirement nodes at all). -/
def c4conn : Elem :=
  ⟨"connections", [("source", "a"), ("target", "b"), ("type", "New.DeriveReqt")], []⟩

/-- A requirement diagram containing only `c4conn`. -/
def c4diag : Elem :=
  ⟨"contents", [("stereotype", "SysmlRequirementDiagram")], [c4conn]⟩

/-- A requirement-diagram connection with no `stereotype` and no `type` but a
declared `xmi:type`. -/
def c6conn : Elem :=
  ⟨"connections", [("source", "a"), ("target", "b"), (xtyKey xuC, "trufun:TDeriveConnection")], []⟩

/-- A requirement diagram containing only `c6conn`. -/
def c6diag : Elem :=
  ⟨"contents", [("stereotype", "SysmlRequirementDiagram")], [c6conn]⟩

/-- An internal-block connection carrying an explicit stereotype and the
connector `type`. -/
def c6ibdconn : Elem :=
  ⟨"connections",
    [("source", "a"), ("target", "b"), ("stereotype", "<<allocate>>"),
     ("type", "SysML.IBD.Connector")], []⟩

/-- An identified element whose display name must come from chain step 2: no
`name` attribute, a `stereotypeNodes` child named `<<block>>`. -/
def e7 : Elem :=
  ⟨"ownedComment", [(xidKey xuC, "e7")], [⟨"stereotypeNodes", [("name", "<<block>>")], []⟩]⟩

/-- A parametric-diagram connection with both endpoints whose FIRST
`eAnnotations/details[@key='palette_entry_id']` child has a different value,
while a LATER one carries the binding-connector value. -/
def c8conn : Elem :=
  ⟨"connections", [("source", "a"), ("target", "b")],
    [⟨"eAnnotations", [],
      [⟨"details", [("key", "palette_entry_id"), ("value", "Other.Tool.Entry")], []⟩,
       ⟨"details", [("key", "palette_entry_id"), ("value", "SysML.IBD.BindingConnector")], []⟩]⟩]⟩

/-- A parametric diagram containing only `c8conn`. -/
def c8diag : Elem :=
  ⟨"contents",
    [("stereotype", "SysmlParameterDiagram"), (xtyKey xuC, "trufun:TCompositeStructureDiagram")],
    [c8conn]⟩

/-- A sequence-diagram message connection with no `source` attribute. -/
def c10conn : Elem :=
  ⟨"connections", [(xtyKey xuC, "trufun:TMessageConnection_SD"), ("name", "start"), ("target", "ev2")], []⟩

/-! ## Theorems -/

/-- C1: the entity `id` emitted by `triples_to_graph_json` is
`str(hash(name))` for the run's Python string-hash function; two runs whose
hash functions render a name differently emit different `id` strings for the
same display name, so the `id` is not a cross-run-stable function of the name
alone. -/
theorem c1_entity_id_depends_on_run_hash (h1 h2 : String → Int)
    (label name rel obj : String)
    (hne : toString (h1 name) ≠ toString (h2 name)) :
    ∃ r1 r2 : RelJson,
      triplesToGraphJson h1 label [(name, rel, obj)] = [r1]
      ∧ triplesToGraphJson h2 label [(name, rel, obj)] = [r2]
      ∧ r1.head.name = r2.head.name
      ∧ r1.head.id = toString (h1 name)
      ∧ r2.head.id = toString (h2 name)
      ∧ r1.head.id ≠ r2.head.id := by
  refine ⟨_, _, rfl, rfl, rfl, rfl, rfl, ?_⟩
  simpa [triplesToGraphJson] using hne

/-- Witness for C1 at the name `"Engine"` and two concrete run-hash
functions. -/
theorem c1_entity_id_witness :
    ∃ r1 r2 : RelJson,
      triplesToGraphJson (fun _ => (0 : Int)) "tmx" [("Engine", "Association", "Wheel")] = [r1]
      ∧ triplesToGraphJson (fun _ => (1 : Int)) "tmx" [("Engine", "Association", "Wheel")] = [r2]
      ∧ r1.head.name = r2.head.name
      ∧ r1.head.id = toString ((0 : Int))
      ∧ r2.head.id = toString ((1 : Int))
      ∧ r1.head.id ≠ r2.head.id :=
  c1_entity_id_depends_on_run_hash (fun _ => (0 : Int)) (fun _ => (1 : Int))
    "tmx" "Engine" "Association" "Wheel" (by decide)

/-- C2: on the well-formed document `c2doc`, `SysMLParser` construction
(`load_xml`'s global-index pass) raises before any extraction can run — the
embedded pipeline returns `none` although the input is well-formed XML. -/
theorem c2_wellformed_input_aborts :
    buildGlobalIndex xuC c2doc = none ∧ runAll xuC c2doc = none :=
  ⟨rfl, rfl⟩

/-- Every entity record serialized by `triples_to_graph_json` has
`id = str(hash(name))`. -/
theorem entity_id_eq_hash_of_name (pyHash : String → Int) (label : String)
    (ts : List Triple) (e : EntityJson)
    (he : e ∈ entitiesOf (triplesToGraphJson pyHash label ts)) :
    e.id = toString (pyHash e.name) := by
  simp only [entitiesOf, triplesToGraphJson, List.mem_flatMap, List.mem_map,
    List.mem_cons, List.not_mem_nil, or_false] at he
  rcases he with ⟨r, ⟨t, _, rfl⟩, rfl | rfl⟩ <;> rfl

/-- C9: within one run (one hash function), any two serialized entity records
carrying the same display name carry the same entity `id`, whatever diagrams
their triples came from. -/
theorem c9_equal_names_equal_ids (pyHash : String → Int) (label : String)
    (ts : List Triple) (e1 e2 : EntityJson)
    (h1 : e1 ∈ entitiesOf (triplesToGraphJson pyHash label ts))
    (h2 : e2 ∈ entitiesOf (triplesToGraphJson pyHash label ts))
    (hn : e1.name = e2.name) :
    e1.id = e2.id := by
  rw [entity_id_eq_hash_of_name pyHash label ts e1 h1,
    entity_id_eq_hash_of_name pyHash label ts e2 h2, hn]

/-- Witness for C9: `"Engine"` mentioned in two different triples serializes
to one shared `id`. -/
theorem c9_equal_names_witness :
    (⟨"tmx", "6", "Engine"⟩ : EntityJson).id = (⟨"tmx", "6", "Engine"⟩ : EntityJson).id :=
  c9_equal_names_equal_ids (fun s => (s.length : Int)) "tmx"
    [("Engine", "drives", "Wheel"), ("Chassis", "holds", "Engine")]
    ⟨"tmx", "6", "Engine"⟩ ⟨"tmx", "6", "Engine"⟩
    (by decide) (by decide) rfl

/-- C4: a requirement-diagram connection with both endpoint IDs present whose
`source` has no entry in the per-diagram naming table still yields exactly one
triple, whose subject is the fixed placeholder `"未知节点 (ID: <ID>)"`, and
that triple is appended to the diagram's triples (no exception: the extractor
is a total function). -/
theorem c4_unresolved_endpoint_placeholder (xu : String) (d conn : Elem)
    (s t : String)
    (hs : conn.get "source" = some s) (hs0 : s ≠ "")
    (ht : conn.get "target" = some t) (ht0 : t ≠ "")
    (hmiss : reqNodeTable xu d s = none)
    (hmem : conn ∈ childrenTag d "connections") :
    reqConnTriple (reqNodeTable xu d) conn
      = some ("未知节点 (ID: " ++ s ++ ")", reqConnLabel conn,
              resolveName (reqNodeTable xu d) t)
    ∧ ("未知节点 (ID: " ++ s ++ ")", reqConnLabel conn,
        resolveName (reqNodeTable xu d) t) ∈ reqDiagramTriples xu d := by
  have h1 : reqConnTriple (reqNodeTable xu d) conn
      = some ("未知节点 (ID: " ++ s ++ ")", reqConnLabel conn,
              resolveName (reqNodeTable xu d) t) := by
    unfold reqConnTriple
    rw [hs, ht]
    simp [truthy, od, hs0, ht0, resolveName, dget, hmiss]
  refine ⟨h1, ?_⟩
  unfold reqDiagramTriples
  exact List.mem_filterMap.mpr ⟨conn, hmem, h1⟩

/-- Witness for C4: in `c4diag` (no requirement nodes), both endpoints of
`c4conn` fall back to placeholders and the triple is appended. -/
theorem c4_placeholder_witness :
    reqConnTriple (reqNodeTable xuC c4diag) c4conn
      = some ("未知节点 (ID: a)", "DeriveReqt", "未知节点 (ID: b)")
    ∧ ("未知节点 (ID: a)", "DeriveReqt", "未知节点 (ID: b)")
        ∈ reqDiagramTriples xuC c4diag :=
  c4_unresolved_endpoint_placeholder xuC c4diag c4conn "a" "b"
    rfl (by decide) rfl (by decide) rfl (List.Mem.head _)

/-- C5: a requirement-diagram connection whose `source` and `target` are both
present, non-empty and resolvable through the per-diagram naming table yields
exactly one triple whose subject and object are the resolved display names; a
connection with a missing or empty endpoint attribute yields no triple; a
diagram with no connections yields no triples (and is not an error). -/
theorem c5_resolved_connection_triples (xu : String) (d conn : Elem)
    (s t vs vt : String)
    (hs : conn.get "source" = some s) (hs0 : s ≠ "")
    (ht : conn.get "target" = some t) (ht0 : t ≠ "")
    (hvs : reqNodeTable xu d s = some vs)
    (hvt : reqNodeTable xu d t = some vt) :
    reqConnTriple (reqNodeTable xu d) conn = some (vs, reqConnLabel conn, vt)
    ∧ (∀ c : Elem,
        c.get "source" = none ∨ c.get "source" = some ""
          ∨ c.get "target" = none ∨ c.get "target" = some "" →
        reqConnTriple (reqNodeTable xu d) c = none)
    ∧ (childrenTag d "connections" = [] → reqDiagramTriples xu d = []) := by
  refine ⟨?_, ?_, ?_⟩
  · unfold reqConnTriple
    rw [hs, ht]
    simp [truthy, od, hs0, ht0, resolveName, dget, hvs, hvt]
  · rintro c (hc | hc | hc | hc) <;> simp [reqConnTriple, truthy, hc]
  · intro h0
    unfold reqDiagramTriples
    rw [h0]
    rfl

/-- Witness for C5: the connection of `reqD` yields `("R1", "Derive", "R2")`. -/
theorem c5_resolved_witness :
    reqConnTriple (reqNodeTable xuC reqD) reqConn1 = some ("R1", "Derive", "R2")
    ∧ (∀ c : Elem,
        c.get "source" = none ∨ c.get "source" = some ""
          ∨ c.get "target" = none ∨ c.get "target" = some "" →
        reqConnTriple (reqNodeTable xuC reqD) c = none)
    ∧ (childrenTag reqD "connections" = [] → reqDiagramTriples xuC reqD = []) :=
  c5_resolved_connection_triples xuC reqD reqConn1 "r1" "r2" "R1" "R2"
    rfl (by decide) rfl (by decide) rfl rfl

/-- C10: a sequence-diagram connection of declared type
`trufun:TMessageConnection_SD` appends exactly one triple even when its
`source` attribute is absent — the missing endpoint becomes the
unknown-lifeline placeholder, with the absent value rendered `"None"` — while
in the other diagram kinds a connection with a missing `source` appends
nothing. -/
theorem c10_message_appended_despite_missing_endpoint (xu : String)
    (emap nmap : Dmap) (conn : Elem) (ds : List String)
    (hty : conn.get (xtyKey xu) = some "trufun:TMessageConnection_SD")
    (hdet : seqMsgDetails conn (pyStrip (conn.getD "name" "Unnamed Message")) = some ds)
    (hs : conn.get "source" = none) :
    (∃ lab, seqConnTriples xu emap nmap conn
      = some [("未知生命线 (事件: None)", lab,
               seqEndpointName emap nmap (conn.get "target"))])
    ∧ (∀ (table : Dmap) (c : Elem), c.get "source" = none →
        reqConnTriple table c = none ∧ ibdConnTriple xu table c = none
        ∧ blockConnTriple xu table c = none ∧ ucConnTriple xu table c = none) := by
  constructor
  · have hsrc : seqEndpointName emap nmap none = "未知生命线 (事件: None)" := rfl
    refine ⟨if ds.isEmpty then pyStrip (conn.getD "name" "Unnamed Message")
        else pyStrip (conn.getD "name" "Unnamed Message")
          ++ " (" ++ String.intercalate ", " ds ++ ")", ?_⟩
    simp only [seqConnTriples, hty, hdet, hs, hsrc, Option.map_some',
      beq_self_eq_true, if_true]
  · intro table c hc
    refine ⟨?_, ?_, ?_, ?_⟩ <;>
      simp [reqConnTriple, ibdConnTriple, blockConnTriple, ucConnTriple, truthy, hc]

/-- Witness for C10 at a concrete message connection with no `source`. -/
theorem c10_message_witness :
    (∃ lab, seqConnTriples xuC dempty dempty c10conn
      = some [("未知生命线 (事件: None)", lab,
               seqEndpointName dempty dempty (c10conn.get "target"))])
    ∧ (∀ (table : Dmap) (c : Elem), c.get "source" = none →
        reqConnTriple table c = none ∧ ibdConnTriple xuC table c = none
        ∧ blockConnTriple xuC table c = none ∧ ucConnTriple xuC table c = none) :=
  c10_message_appended_despite_missing_endpoint xuC dempty dempty c10conn []
    rfl rfl rfl

/-- C6 counterexample: the claimed uniform priority chain fails twice.  A
requirement connection with neither `stereotype` nor `type` gets the constant
`"Unknown"` (never the cleaned element-type `"Derive"` the chain demands), and
its triple is appended with that label; an internal-block connection carrying
stereotype `<<allocate>>` gets `"Connector"` (the code never consults the
stereotype in that kind), not the chain's `"Allocate"`. -/
theorem c6_priority_chain_counterexample :
    reqDiagramTriples xuC c6diag = [("未知节点 (ID: a)", "Unknown", "未知节点 (ID: b)")]
    ∧ reqConnLabel c6conn = "Unknown"
    ∧ claimChainLabel xuC c6conn = "Derive"
    ∧ ibdConnLabel xuC c6ibdconn = "Connector"
    ∧ claimChainLabel xuC c6ibdconn = "Allocate" :=
  ⟨rfl, rfl, rfl, rfl, rfl⟩

/-- C6 (amended): each diagram kind has its own fixed label chain.
Requirement: stereotype (angle-stripped, capitalized) > `type` attribute
(after the last dot) > the constant `"Unknown"`.  Internal block:
`type == "SysML.IBD.Connector"` > cleaned `xmi:type` > raw tag (stereotype is
never consulted).  Block: cleaned `xmi:type` > raw tag.  In every kind the
appended triple's relation is exactly that kind's label. -/
theorem c6_per_kind_label_chains (xu : String) (conn : Elem) :
    ((truthy (conn.get "stereotype") = true →
        reqConnLabel conn = pyCapitalize (pyStripSet angleChars (od (conn.get "stereotype"))))
      ∧ (truthy (conn.get "stereotype") = false → truthy (conn.get "type") = true →
        reqConnLabel conn = afterLastSep '.' (od (conn.get "type")))
      ∧ (truthy (conn.get "stereotype") = false → truthy (conn.get "type") = false →
        reqConnLabel conn = "Unknown"))
    ∧ ((conn.get "type" = some "SysML.IBD.Connector" → ibdConnLabel xu conn = "Connector")
      ∧ (conn.get "type" ≠ some "SysML.IBD.Connector" →
          truthy (conn.get (xtyKey xu)) = true →
        ibdConnLabel xu conn
          = pyRemove (pyRemove (afterLastSep ':' (od (conn.get (xtyKey xu)))) "T") "Connection")
      ∧ (conn.get "type" ≠ some "SysML.IBD.Connector" →
          truthy (conn.get (xtyKey xu)) = false →
        ibdConnLabel xu conn = stripNs conn.tag))
    ∧ ((truthy (conn.get (xtyKey xu)) = true →
        blockConnLabel xu conn
          = pyRemove (pyRemove (afterLastSep ':' (od (conn.get (xtyKey xu)))) "T") "Connection")
      ∧ (truthy (conn.get (xtyKey xu)) = false →
        blockConnLabel xu conn = stripNs conn.tag))
    ∧ (∀ (table : Dmap) (tr : Triple),
        (reqConnTriple table conn = some tr → tr.2.1 = reqConnLabel conn)
        ∧ (ibdConnTriple xu table conn = some tr → tr.2.1 = ibdConnLabel xu conn)
        ∧ (blockConnTriple xu table conn = some tr → tr.2.1 = blockConnLabel xu conn)) := by
  refine ⟨⟨?_, ?_, ?_⟩, ⟨?_, ?_, ?_⟩, ⟨?_, ?_⟩, ?_⟩
  · intro h1; simp [reqConnLabel, h1]
  · intro h1 h2; simp [reqConnLabel, h1, h2]
  · intro h1 h2; simp [reqConnLabel, h1, h2]
  · intro h1; simp [ibdConnLabel, h1]
  · intro h1 h2
    simp only [ibdConnLabel, h2, if_true]
    rw [if_neg]
    simp only [beq_iff_eq]
    exact h1
  · intro h1 h2
    simp only [ibdConnLabel, h2, if_false, Bool.false_eq_true]
    rw [if_neg]
    simp only [beq_iff_eq]
    exact h1
  · intro h1; simp [blockConnLabel, h1]
  · intro h1; simp [blockConnLabel, h1]
  · intro table tr
    refine ⟨?_, ?_, ?_⟩
    · intro htr; unfold reqConnTriple at htr; split at htr
      · injection htr with h; subst h; rfl
      · simp at htr
    · intro htr; unfold ibdConnTriple at htr; split at htr
      · injection htr with h; subst h; rfl
      · simp at htr
    · intro htr; unfold blockConnTriple at htr; split at htr
      · injection htr with h; subst h; rfl
      · simp at htr

/-- C7: the global-index display name follows the strict first-match fallback
chain — non-empty `name`; stereotype child's name stripped of angle brackets
and whitespace; `Name`-alias sub-label's name; cleaned `xmi:type` with the
`" (类型)"` suffix; `"未知元素 (ID: <ID>)"` placeholder — for every element
carrying a truthy identity attribute (one name per ID). -/
theorem c7_display_name_fallback_chain (xu : String) (e : Elem) (eid : String)
    (hid : e.get (xidKey xu) = some eid) (hid0 : eid ≠ "") :
    (truthy (e.get "name") = true →
      indexEntry xu e = some (some (eid, od (e.get "name"))))
    ∧ (truthy (e.get "name") = false →
      truthy ((firstChildTag e "stereotypeNodes").bind (fun c => c.get "name")) = true →
      indexEntry xu e = some (some (eid,
        pyStrip (pyStripSet angleChars
          (od ((firstChildTag e "stereotypeNodes").bind (fun c => c.get "name")))))))
    ∧ (truthy (e.get "name") = false →
      truthy ((firstChildTag e "stereotypeNodes").bind (fun c => c.get "name")) = false →
      ∀ sl ln, firstChildTagAttr e "subLabels" "alias" "Name" = some sl →
        sl.get "name" = some ln →
        indexEntry xu e = some (some (eid, pyStrip ln)))
    ∧ (truthy (e.get "name") = false →
      truthy ((firstChildTag e "stereotypeNodes").bind (fun c => c.get "name")) = false →
      firstChildTagAttr e "subLabels" "alias" "Name" = none →
      truthy (e.get (xtyKey xu)) = true →
      indexEntry xu e = some (some (eid,
        pyRemove (pyRemove (stripNs (od (e.get (xtyKey xu)))) "trufun:") "T" ++ " (类型)")))
    ∧ (truthy (e.get "name") = false →
      truthy ((firstChildTag e "stereotypeNodes").bind (fun c => c.get "name")) = false →
      firstChildTagAttr e "subLabels" "alias" "Name" = none →
      truthy (e.get (xtyKey xu)) = false →
      indexEntry xu e = some (some (eid, "未知元素 (ID: " ++ eid ++ ")"))) := by
  have htid : truthy (e.get (xidKey xu)) = true := by simp [truthy, hid, hid0]
  have hoid : od (e.get (xidKey xu)) = eid := by simp [od, hid]
  refine ⟨?_, ?_, ?_, ?_, ?_⟩
  · intro h1; simp [indexEntry, htid, hoid, h1]
  · intro h1 h2; simp [indexEntry, htid, hoid, h1, h2]
  · intro h1 h2 sl ln hsl hln
    simp [indexEntry, htid, hoid, h1, h2, hsl, hln]
  · intro h1 h2 h3 h4
    simp [indexEntry, htid, hoid, h1, h2, h3, h4]
  · intro h1 h2 h3 h4
    simp [indexEntry, htid, hoid, h1, h2, h3, h4]

/-- Witness for C7 at `e7` (chain step 2: the stereotype child's name). -/
theorem c7_fallback_chain_witness :
    indexEntry xuC e7 = some (some ("e7", "block")) :=
  (c7_display_name_fallback_chain xuC e7 "e7" rfl (by decide)).2.1 rfl rfl

/-- C8 counterexample: `c8conn` has both endpoints and carries an
`eAnnotations/details` child with key `palette_entry_id` and the
binding-connector value (the claim's marker), yet no triple is appended,
because the FIRST such child has a different value. -/
theorem c8_existential_marker_counterexample :
    truthy (c8conn.get "source") = true
    ∧ truthy (c8conn.get "target") = true
    ∧ claimHasBindingMarker c8conn = true
    ∧ paramConnTriple dempty c8conn = none
    ∧ paramDiagramTriples xuC dempty c8diag = some [] :=
  ⟨rfl, rfl, rfl, rfl, rfl⟩

/-- C8 (amended): a parametric connection yields a triple iff both endpoint
IDs are truthy and the FIRST `eAnnotations/details` child with key
`palette_entry_id` has value `SysML.IBD.BindingConnector`. -/
theorem c8_first_marker_decides (table : Dmap) (conn : Elem) :
    (paramConnTriple table conn).isSome
      = (truthy (conn.get "source") && truthy (conn.get "target")
          && bindingMarkerOk conn) := by
  unfold paramConnTriple
  split <;> simp_all

/-- C3 counterexample: in `c3doc` the internal-block diagram precedes the
requirement diagram in document order, yet the requirement diagram's triple is
appended first. -/
theorem c3_document_order_counterexample :
    (allElems c3doc).findIdx isIbdDiagram < (allElems c3doc).findIdx isReqDiagram
    ∧ runAll xuC c3doc
        = some [("R1", "Derive", "R2"), ("端口: p1", "Connector", "端口: p2")]
    ∧ reqDiagramTriples xuC reqD = [("R1", "Derive", "R2")]
    ∧ ibdDiagramTriples xuC ibdD = some [("端口: p1", "Connector", "端口: p2")] :=
  ⟨by decide, by decide, rfl, rfl⟩

/-- C3 (amended): `parse_all` groups triples by extractor in its fixed call
order (requirement, internal-block, block, use-case, activity, class,
state-machine, package, parametric); within one kind — shown here for the
requirement extractor — diagrams are processed in document order, so a
preceding diagram's triples come first. -/
theorem c3_kind_grouped_order (xu : String) (gidx : Dmap) (root : Elem)
    (pre mid post : List Elem) (d1 d2 : Elem)
    (h : (allElems root).filter isReqDiagram = pre ++ d1 :: (mid ++ d2 :: post)) :
    extractRequirementDiagrams xu root
      = pre.flatMap (reqDiagramTriples xu) ++ reqDiagramTriples xu d1
        ++ mid.flatMap (reqDiagramTriples xu) ++ reqDiagramTriples xu d2
        ++ post.flatMap (reqDiagramTriples xu)
    ∧ (∀ ts, parseAll xu gidx root = some ts →
        ∃ l2 l5 l7 l8 l9,
          extractInternalBlockDiagrams xu root = some l2
          ∧ extractActivityDiagrams xu root = some l5
          ∧ extractStateMachineDiagrams xu root = some l7
          ∧ extractPackageDiagrams xu root = some l8
          ∧ extractParametricDiagrams xu gidx root = some l9
          ∧ ts = extractRequirementDiagrams xu root ++ l2 ++ extractBlockDiagrams xu root
              ++ extractUsecaseDiagrams xu root ++ l5 ++ extractClassDiagrams xu root
              ++ l7 ++ l8 ++ l9) := by
  constructor
  · unfold extractRequirementDiagrams
    rw [h]
    simp [List.flatMap_append, List.flatMap_cons, List.append_assoc]
  · intro ts hts
    cases h2 : extractInternalBlockDiagrams xu root with
    | none => simp [parseAll, h2] at hts
    | some l2 =>
      cases h5 : extractActivityDiagrams xu root with
      | none => simp [parseAll, h2, h5] at hts
      | some l5 =>
        cases h7 : extractStateMachineDiagrams xu root with
        | none => simp [parseAll, h2, h5, h7] at hts
        | some l7 =>
          cases h8 : extractPackageDiagrams xu root with
          | none => simp [parseAll, h2, h5, h7, h8] at hts
          | some l8 =>
            cases h9 : extractParametricDiagrams xu gidx root with
            | none => simp [parseAll, h2, h5, h7, h8, h9] at hts
            | some l9 =>
              refine ⟨l2, l5, l7, l8, l9, rfl, rfl, rfl, rfl, rfl, ?_⟩
              simp only [parseAll, h2, h5, h7, h8, h9, Option.bind_eq_bind,
                Option.some_bind, Option.pure_def, Option.some.injEq] at hts
              exact hts.symm

/-- Witness for C3 (amended) on a document with two requirement diagrams. -/
theorem c3_kind_grouped_order_witness :
    extractRequirementDiagrams xuC c3wdoc
      = [("R1", "Derive", "R2"), ("R3", "Trace", "R4")]
    ∧ (∀ ts, parseAll xuC dempty c3wdoc = some ts →
        ∃ l2 l5 l7 l8 l9,
          extractInternalBlockDiagrams xuC c3wdoc = some l2
          ∧ extractActivityDiagrams xuC c3wdoc = some l5
          ∧ extractStateMachineDiagrams xuC c3wdoc = some l7
          ∧ extractPackageDiagrams xuC c3wdoc = some l8
          ∧ extractParametricDiagrams xuC dempty c3wdoc = some l9
          ∧ ts = extractRequirementDiagrams xuC c3wdoc ++ l2
              ++ extractBlockDiagrams xuC c3wdoc
              ++ extractUsecaseDiagrams xuC c3wdoc ++ l5
              ++ extractClassDiagrams xuC c3wdoc
              ++ l7 ++ l8 ++ l9) :=
  c3_kind_grouped_order xuC dempty c3wdoc [] [] [] reqD reqD2 rfl

end Tmx
